import Mathlib

/-!
Verification of the goal-admission and execution state machine of
`niryo_robot_commander/scripts/robot_commander_node.py`.

The Python node is callback-driven and concurrent.  We embed it shallowly:

* each callback becomes a pure Lean function of the values it reads;
* reads of fields that a concurrent callback may mutate between two
  program points (`self.__pause_state`, the result of
  `self.__pause_finished_event.wait`, `self.__current_goal_is_active()`)
  are supplied as oracle inputs, one per textual read, so every possible
  interleaving of concurrent writers is covered;
* side effects (calls to `set_canceled`, `set_aborted`, the executor,
  `__reset_pause_play_state`, `event.set()`, `stop_arm`, ...) are recorded
  in an ordered trace of actions;
* the unbounded recursion of `__execute_goal_action` on RESUME is driven
  by the list of per-attempt oracle environments: one list element per
  attempt, so the recursion is structural on that list.

Enumerated message constants (`CommandStatus`, `PausePlanExecution`,
`GoalStatus`, `RobotCommand.cmd_type`) live in message packages outside
this repository; they are distinct named integer constants, modelled here
as inductive types with one constructor per named constant used by the
node (plus a catch-all for "any other status code").
-/

/-- Named `CommandStatus` constants referenced by the node, plus `OTHER n`
standing for any further status code. -/
inductive CommandStatus where
  | SUCCESS
  | STOPPED
  | CONTROLLER_PROBLEMS
  | HARDWARE_NOT_OK
  | CALIBRATION_NOT_DONE
  | JOG_CONTROLLER_ENABLED
  | GOAL_STILL_ACTIVE
  | LEARNING_MODE_ON
  | UNKNOWN_COMMAND
  | OTHER (n : Int)
  deriving DecidableEq, Repr

/-- `PausePlanExecution` state constants. -/
inductive PauseState where
  | STANDBY
  | PAUSE
  | RESUME
  | CANCEL
  deriving DecidableEq, Repr

/-- `actionlib_msgs/GoalStatus` constants used by `__current_goal_is_active`. -/
inductive GoalStatus where
  | PENDING
  | ACTIVE
  | PREEMPTED
  | SUCCEEDED
  | ABORTED
  | REJECTED
  | PREEMPTING
  | RECALLING
  | RECALLED
  | LOST
  deriving DecidableEq, Repr

/-- `RobotCommand.cmd_type` discriminator; the admission path only tests
equality with `TOOL_ONLY`. -/
inductive CmdType where
  | MOVE_ONLY
  | TOOL_ONLY
  | OTHER (n : Int)
  deriving DecidableEq, Repr

/-- The fields of `HardwareStatus` read by `__callback_goal`. -/
structure HardwareStatus where
  connection_up : Bool
  calibration_needed : Bool
  calibration_in_progress : Bool
  deriving DecidableEq, Repr

/-- `RobotMoveResult` as built by `create_result`. -/
structure RobotMoveResult where
  status : CommandStatus
  message : String
  deriving DecidableEq, Repr

/-- `create_result(status, message)` (robot_commander_node.py lines 393-404). -/
def create_result (status : CommandStatus) (message : String) : RobotMoveResult :=
  { status := status, message := message }

/-- `__current_goal_is_active` (lines 287-290): the handle holds a goal and
its status is ACTIVE or PENDING. -/
def current_goal_is_active (hasGoal : Bool) (st : GoalStatus) : Bool :=
  if ¬ hasGoal then false
  else decide (st = GoalStatus.ACTIVE ∨ st = GoalStatus.PENDING)

/-- One observation of the current goal slot: whether the handle holds a
goal, and that goal's status. -/
structure SlotRead where
  hasGoal : Bool
  status : GoalStatus
  deriving DecidableEq, Repr

/-- The retry loop of `__callback_goal` (lines 244-254), entered when the
current goal was seen active.  `reads` holds the result of
`__current_goal_is_active()` re-read in each of the
`command_still_active_max_tries` iterations (so `reads.length` is the
configured max-tries count).  Returns `true` when the Python `for`-`else`
fires, i.e. the goal stayed active through every retry and the request is
rejected GOAL_STILL_ACTIVE; `false` as soon as a re-read finds the goal
inactive and the loop breaks. -/
def still_active_after_retries (reads : List SlotRead) : Bool :=
  match reads with
  | [] => true
  | r :: rest =>
    if ¬ current_goal_is_active r.hasGoal r.status then false
    else still_active_after_retries rest

/-- Possible behaviours of the `/niryo_robot/learning_mode/activate`
service call made by `__set_learning_mode`: it answers with some status,
or times out (`rospy.ROSException` from `wait_for_service`), or fails
(`rospy.ServiceException`). -/
inductive ServiceBehaviour where
  | answers (status : CommandStatus)
  | timesOut
  | fails
  deriving DecidableEq, Repr

/-- `__set_learning_mode` (lines 383-391): returns whether the service
answered SUCCESS; both exception classes are caught and yield `False`. -/
def set_learning_mode (call : ServiceBehaviour) : Bool :=
  match call with
  | ServiceBehaviour.answers st => decide (st = CommandStatus.SUCCESS)
  | ServiceBehaviour.timesOut => false
  | ServiceBehaviour.fails => false

/-- Outcome of `__callback_goal` for the caller of the action server. -/
inductive AdmissionResult where
  | rejected (r : RobotMoveResult)
  | accepted
  deriving DecidableEq, Repr

/-- Everything `__callback_goal` does that later claims refer to. -/
structure AdmissionOut where
  result : AdmissionResult
  /-- `self.__current_goal_handle = goal_handle; set_accepted()` reached. -/
  installed : Bool
  /-- `__set_learning_mode(False)` was called. -/
  disengageAttempted : Bool
  deriving DecidableEq, Repr

/-- The learning-mode stage of `__callback_goal` (lines 256-266): the tail
of the callback once every earlier check has passed. -/
def learning_mode_stage (learningModeOn : Bool) (cmdType : CmdType)
    (svc : ServiceBehaviour) : AdmissionOut :=
  if learningModeOn ∧ cmdType ≠ CmdType.TOOL_ONLY then
    if ¬ set_learning_mode svc then
      { result := AdmissionResult.rejected
          (create_result CommandStatus.LEARNING_MODE_ON
            "Learning mode could not be deactivated"),
        installed := false,
        disengageAttempted := true }
    else
      { result := AdmissionResult.accepted, installed := true,
        disengageAttempted := true }
  else
    { result := AdmissionResult.accepted, installed := true,
      disengageAttempted := false }

/-- `__callback_goal` (lines 197-272).

Inputs are the values the callback reads:
`hw` is `self.__hardware_status` (`none` before the first hardware-status
message), `jogEnabled` is `self.__jog_controller.is_enabled()`,
`slot0` is the slot observed by the first `__current_goal_is_active()`
call, `retryReads` the slot observations of the retry loop (one per
configured try), `learningModeOn` is `self.__learning_mode_on`, `cmdType`
the goal's command type and `svc` the behaviour of the learning-mode
service if called. -/
def callback_goal (hw : Option HardwareStatus) (jogEnabled : Bool)
    (slot0 : SlotRead) (retryReads : List SlotRead)
    (learningModeOn : Bool) (cmdType : CmdType)
    (svc : ServiceBehaviour) : AdmissionOut :=
  match hw with
  | none =>
    { result := AdmissionResult.rejected
        (create_result CommandStatus.HARDWARE_NOT_OK
          "Hardware Status still not received, please restart the robot"),
      installed := false, disengageAttempted := false }
  | some h =>
    if ¬ h.connection_up then
      { result := AdmissionResult.rejected
          (create_result CommandStatus.HARDWARE_NOT_OK
            "Motor connection problem, you can't send a command now"),
        installed := false, disengageAttempted := false }
    else if h.calibration_needed then
      { result := AdmissionResult.rejected
          (create_result CommandStatus.CALIBRATION_NOT_DONE
            "You need to calibrate the robot before sending a command"),
        installed := false, disengageAttempted := false }
    else if h.calibration_in_progress then
      { result := AdmissionResult.rejected
          (create_result CommandStatus.CALIBRATION_NOT_DONE
            "Calibration in progress, wait until it ends to send a command"),
        installed := false, disengageAttempted := false }
    else if jogEnabled then
      { result := AdmissionResult.rejected
          (create_result CommandStatus.JOG_CONTROLLER_ENABLED
            "You need to deactivate jog controller to execute a new command"),
        installed := false, disengageAttempted := false }
    else if current_goal_is_active slot0.hasGoal slot0.status ∧
        still_active_after_retries retryReads then
      { result := AdmissionResult.rejected
          (create_result CommandStatus.GOAL_STILL_ACTIVE
            "Current command is still active"),
        installed := false, disengageAttempted := false }
    else
      learning_mode_stage learningModeOn cmdType svc

/-- Diagnostic class attached to a `set_aborted` call. -/
inductive Diag where
  /-- line 340: "Execution has been aborted" (no response produced). -/
  | execFailure
  /-- lines 347-352: controller failed (collision / motor overload class). -/
  | controllerProblems
  /-- lines 336 and 355: "Unknown result, goal has been set as aborted". -/
  | unknownResult
  deriving DecidableEq, Repr

/-- Observable actions of the execution path, in program order. -/
inductive Act where
  /-- `__interpret_and_execute_command` invoked. -/
  | invokeExecutor
  /-- `goal_handle.set_canceled(...)`. -/
  | setCanceled
  /-- `goal_handle.set_succeeded(result)`. -/
  | setSucceeded
  /-- `goal_handle.set_aborted(result)` with diagnostic class `d`. -/
  | setAborted (d : Diag)
  /-- `__reset_pause_play_state`: `event.set()` and `pause_state := STANDBY`. -/
  | resetPausePlay
  /-- bare `self.__pause_finished_event.set()` (line 357). -/
  | eventSet
  deriving DecidableEq, Repr

/-- The pause bookkeeping a trace of actions acts on. -/
structure PauseVars where
  /-- `self.__pause_finished_event` is set ("clear"); `false` = blocked. -/
  gateSet : Bool
  pauseState : PauseState
  deriving DecidableEq, Repr

/-- Effect of one action on the pause bookkeeping
(`__reset_pause_play_state`, lines 283-285, and line 357). -/
def applyAct (s : PauseVars) : Act → PauseVars
  | Act.resetPausePlay => { gateSet := true, pauseState := PauseState.STANDBY }
  | Act.eventSet => { s with gateSet := true }
  | _ => s

/-- Run a trace of actions over the pause bookkeeping. -/
def runActs (s : PauseVars) (tr : List Act) : PauseVars :=
  tr.foldl applyAct s

/-- `__cancel_due_to_pause` (lines 292-305).  `waitOk` is the result of
`self.__pause_finished_event.wait(timeout=self.__pause_timeout)`: `false`
exactly when the gate was blocked and stayed blocked past the configured
pause timeout.  `ps` is the value of `self.__pause_state` read by the
second test.  Returns whether the goal was cancelled, with the trace of
`set_canceled` calls made. -/
def cancel_due_to_pause (waitOk : Bool) (ps : PauseState) : Bool × List Act :=
  if ¬ waitOk then (true, [Act.setCanceled])
  else if ps = PauseState.CANCEL then (true, [Act.setCanceled])
  else (false, [])

/-- What one executor invocation produced: `Except.error r` when a
`RobotCommanderException` / `ArmCommanderException` /
`ToolCommanderException` was raised (so `response = None` and `result`
is built from the exception, lines 321-325), `Except.ok r` when
`__interpret_and_execute_command` returned normally (lines 317-320). -/
def ExecResult := Except RobotMoveResult RobotMoveResult

/-- The `response` local: `none` exactly when the executor raised. -/
def responseOf (e : ExecResult) : Option RobotMoveResult :=
  match e with
  | Except.ok r => some r
  | Except.error _ => none

/-- The outcome-mapping chain of `__execute_goal_action` (lines 337-355),
taken when the pause state read at line 328 is not PAUSE: which
`set_*` call the chain makes for a given `response`. -/
def map_outcome_act (response : Option RobotMoveResult) : Act :=
  match response with
  | none => Act.setAborted Diag.execFailure
  | some r =>
    if r.status = CommandStatus.SUCCESS then Act.setSucceeded
    else if r.status = CommandStatus.STOPPED then Act.setCanceled
    else if r.status = CommandStatus.CONTROLLER_PROBLEMS then
      Act.setAborted Diag.controllerProblems
    else Act.setAborted Diag.unknownResult

/-- Terminal outcome delivered to the caller: which of the three
finalizing calls (`set_succeeded` / `set_aborted` / `set_canceled`) the
node made on the goal handle. -/
inductive Terminal where
  | SUCCEEDED
  | ABORTED
  | CANCELED
  deriving DecidableEq, Repr

/-- Terminal outcome set by a `set_*` action, if any. -/
def termOfAct : Act → Option Terminal
  | Act.setCanceled => some Terminal.CANCELED
  | Act.setSucceeded => some Terminal.SUCCEEDED
  | Act.setAborted _ => some Terminal.ABORTED
  | _ => none

/-- Oracle environment for one attempt of `__execute_goal_action`: the
values its concurrent reads observe during that attempt, in textual
order. -/
structure AttemptEnv where
  /-- `event.wait` result inside the first `__cancel_due_to_pause` (line 294). -/
  preWaitOk : Bool
  /-- `self.__pause_state` read at line 300 during the first pre-check. -/
  prePs : PauseState
  /-- what `__interpret_and_execute_command(cmd)` did. -/
  exec : Except RobotMoveResult RobotMoveResult
  /-- `self.__pause_state` read at line 328. -/
  postPs : PauseState
  /-- `event.wait` result inside the second `__cancel_due_to_pause` (line 329). -/
  postWaitOk : Bool
  /-- `self.__pause_state` read at line 300 during the second pre-check. -/
  postPs2 : PauseState
  /-- `self.__pause_state` read at line 331 (`elif ... == RESUME`). -/
  postPs3 : PauseState

/-- `__execute_goal_action` (lines 307-357), driven by one oracle
environment per attempt; the RESUME branch (line 333) recurses on the
remaining environments.  Returns the terminal status set on the goal
handle (`none` if the supplied environments run out mid-recursion) and
the ordered trace of actions taken. -/
def execute_goal_action : List AttemptEnv → Option Terminal × List Act
  | [] => (none, [])
  | env :: rest =>
    let pre := cancel_due_to_pause env.preWaitOk env.prePs
    if pre.1 then
      -- lines 313-315: cancelled in the pre-check, reset, return
      (some Terminal.CANCELED, pre.2 ++ [Act.resetPausePlay])
    else
      let response := responseOf env.exec
      if env.postPs = PauseState.PAUSE then
        let post := cancel_due_to_pause env.postWaitOk env.postPs2
        if post.1 then
          -- lines 329-330 then fall through to line 357
          (some Terminal.CANCELED,
            pre.2 ++ [Act.invokeExecutor] ++ post.2 ++
              [Act.resetPausePlay, Act.eventSet])
        else if env.postPs3 = PauseState.RESUME then
          -- line 333: re-entrant retry of the same goal
          let again := execute_goal_action rest
          (again.1, pre.2 ++ [Act.invokeExecutor] ++ post.2 ++ again.2)
        else
          -- lines 334-336 then line 357
          (some Terminal.ABORTED,
            pre.2 ++ [Act.invokeExecutor] ++ post.2 ++
              [Act.setAborted Diag.unknownResult, Act.eventSet])
      else
        -- lines 337-355 then line 357
        let a := map_outcome_act response
        (termOfAct a,
          pre.2 ++ [Act.invokeExecutor] ++ [a, Act.eventSet])

/-- Effects of `__callback_pause_movement` (lines 183-194). -/
structure PauseCbOut where
  /-- `self.__pause_state` after the callback (assigned first, line 184). -/
  pauseState : PauseState
  /-- `self.__pause_finished_event` after the callback
  (`false` = cleared/blocked, `true` = set). -/
  gateSet : Bool
  /-- `__cancel_command()` was called. -/
  cancelRequested : Bool
  deriving DecidableEq, Repr

/-- `__callback_pause_movement(msg)` as a function of `msg.state`; every
branch writes the gate, so the prior gate value is irrelevant. -/
def callback_pause_movement (st : PauseState) : PauseCbOut :=
  if st = PauseState.PAUSE then
    { pauseState := st, gateSet := false, cancelRequested := true }
  else if st = PauseState.CANCEL then
    { pauseState := st, gateSet := true, cancelRequested := true }
  else
    { pauseState := st, gateSet := true, cancelRequested := false }

/-- Cancellation-path events. -/
inductive CanEv where
  /-- `self.__arm_commander.stop_current_plan()` invoked. -/
  | armCancel
  /-- `self.__tool_commander.stop_tool_command()` invoked. -/
  | toolCancel
  /-- the `logwarn` of the `except` clause in `__cancel_current_command`. -/
  | logWarn
  deriving DecidableEq, Repr

/-- `__cancel_command` (lines 379-381).  `armRaises` / `toolRaises` say
whether the respective stop call raises a `RobotCommanderException` (the
domain error contemplated by its caller); on a raise the error propagates
with the events already performed. -/
def cancel_command (armRaises toolRaises : Bool) :
    Except (List CanEv) (List CanEv) :=
  if armRaises then Except.error [CanEv.armCancel]
  else if toolRaises then Except.error [CanEv.armCancel, CanEv.toolCancel]
  else Except.ok [CanEv.armCancel, CanEv.toolCancel]

/-- `__cancel_current_command` (lines 406-410): calls `__cancel_command`,
swallowing and logging `RobotCommanderException`.  Total: it never raises
to its caller. -/
def cancel_current_command (armRaises toolRaises : Bool) : List CanEv :=
  match cancel_command armRaises toolRaises with
  | Except.ok evs => evs
  | Except.error evs => evs ++ [CanEv.logWarn]

/-- `__callback_cancel` (lines 274-280) as a function of whether the
requesting goal handle equals `self.__current_goal_handle`; returns the
cancellation events performed. -/
def callback_cancel (handleMatches : Bool) (armRaises toolRaises : Bool) :
    List CanEv :=
  if handleMatches then cancel_current_command armRaises toolRaises
  else []

/-- Learning-mode-callback events, in program order. -/
inductive LmEv where
  /-- `self.__arm_commander.stop_arm()` invoked. -/
  | stopArm
  /-- `self.__learning_mode_on = activate` executed with value `b`. -/
  | setFlag (b : Bool)
  deriving DecidableEq, Repr

/-- `__callback_learning_mode` (lines 166-170): `lm` is the stored
`self.__learning_mode_on` before the callback, `activate` is `msg.data`.
Returns the new stored flag and the event trace. -/
def callback_learning_mode (lm : Bool) (activate : Bool) : Bool × List LmEv :=
  if ¬ lm ∧ activate then
    (activate, [LmEv.stopArm, LmEv.setFlag activate])
  else
    (activate, [LmEv.setFlag activate])

/-! ## Helper lemmas -/

/-- `__cancel_due_to_pause` either cancels with one `set_canceled` call or
does nothing. -/
theorem cancel_due_to_pause_cases (w : Bool) (p : PauseState) :
    cancel_due_to_pause w p = (true, [Act.setCanceled]) ∨
      cancel_due_to_pause w p = (false, []) := by
  unfold cancel_due_to_pause
  by_cases hw : w
  · by_cases hp : p = PauseState.CANCEL <;> simp [hw, hp]
  · simp [hw]

/-- The pre-check passes exactly when the gate wait succeeded and the
pause state is not CANCEL. -/
theorem cancel_due_to_pause_pass (w : Bool) (p : PauseState)
    (hw : w = true) (hp : p ≠ PauseState.CANCEL) :
    cancel_due_to_pause w p = (false, []) := by
  unfold cancel_due_to_pause
  simp [hw, hp]

/-- The pre-check fires on a timed-out wait or a CANCEL pause state. -/
theorem cancel_due_to_pause_fires (w : Bool) (p : PauseState)
    (h : w = false ∨ p = PauseState.CANCEL) :
    cancel_due_to_pause w p = (true, [Act.setCanceled]) := by
  unfold cancel_due_to_pause
  rcases h with h | h
  · simp [h]
  · by_cases hw : w <;> simp [hw, h]

/-- The retry loop rejects exactly when every one of its re-reads still
saw an active goal. -/
theorem still_active_after_retries_eq_all (reads : List SlotRead) :
    still_active_after_retries reads =
      reads.all (fun r => current_goal_is_active r.hasGoal r.status) := by
  induction reads with
  | nil => rfl
  | cons r rest ih =>
    by_cases h : current_goal_is_active r.hasGoal r.status
    · simp [still_active_after_retries, h, ih]
    · simp [still_active_after_retries, h]

/-- Folding a trace over the bookkeeping splits along concatenation. -/
theorem runActs_append (s : PauseVars) (a b : List Act) :
    runActs s (a ++ b) = runActs (runActs s a) b := by
  simp [runActs, List.foldl_append]

/-! ## C1: admission rejection order -/

/-- C1: every incoming goal request is screened in this fixed
short-circuit order, first match winning: hardware status never received
rejects HARDWARE_NOT_OK; connection down rejects HARDWARE_NOT_OK;
calibration needed rejects CALIBRATION_NOT_DONE; calibration in progress
rejects CALIBRATION_NOT_DONE; jog controller enabled rejects
JOG_CONTROLLER_ENABLED.  With the hardware status unknown the rejection is
HARDWARE_NOT_OK regardless of every other field, and with the connection
down the calibration flags are never consulted: the result is the same for
all their values. -/
theorem callback_goal_rejection_order (h : HardwareStatus) (jog : Bool)
    (slot0 : SlotRead) (reads : List SlotRead) (lm : Bool) (ct : CmdType)
    (svc : ServiceBehaviour) :
    ((callback_goal none jog slot0 reads lm ct svc).result =
      AdmissionResult.rejected (create_result CommandStatus.HARDWARE_NOT_OK
        "Hardware Status still not received, please restart the robot")) ∧
    (h.connection_up = false →
      (callback_goal (some h) jog slot0 reads lm ct svc).result =
        AdmissionResult.rejected (create_result CommandStatus.HARDWARE_NOT_OK
          "Motor connection problem, you can't send a command now")) ∧
    (h.connection_up = true → h.calibration_needed = true →
      (callback_goal (some h) jog slot0 reads lm ct svc).result =
        AdmissionResult.rejected (create_result CommandStatus.CALIBRATION_NOT_DONE
          "You need to calibrate the robot before sending a command")) ∧
    (h.connection_up = true → h.calibration_needed = false →
      h.calibration_in_progress = true →
      (callback_goal (some h) jog slot0 reads lm ct svc).result =
        AdmissionResult.rejected (create_result CommandStatus.CALIBRATION_NOT_DONE
          "Calibration in progress, wait until it ends to send a command")) ∧
    (h.connection_up = true → h.calibration_needed = false →
      h.calibration_in_progress = false → jog = true →
      (callback_goal (some h) jog slot0 reads lm ct svc).result =
        AdmissionResult.rejected (create_result CommandStatus.JOG_CONTROLLER_ENABLED
          "You need to deactivate jog controller to execute a new command")) := by
  obtain ⟨cu, cn, cp⟩ := h
  cases cu <;> cases cn <;> cases cp <;> cases jog <;>
    simp [callback_goal, create_result]

/-- C1 witness: the five rejection branches at concrete inputs. -/
theorem callback_goal_rejection_order_witness :
    ((callback_goal none true ⟨true, GoalStatus.ACTIVE⟩ [] true
        CmdType.MOVE_ONLY ServiceBehaviour.fails).result =
      AdmissionResult.rejected (create_result CommandStatus.HARDWARE_NOT_OK
        "Hardware Status still not received, please restart the robot")) ∧
    ((callback_goal (some ⟨false, true, true⟩) true ⟨true, GoalStatus.ACTIVE⟩ []
        true CmdType.MOVE_ONLY ServiceBehaviour.fails).result =
      AdmissionResult.rejected (create_result CommandStatus.HARDWARE_NOT_OK
        "Motor connection problem, you can't send a command now")) ∧
    ((callback_goal (some ⟨true, true, true⟩) true ⟨true, GoalStatus.ACTIVE⟩ []
        true CmdType.MOVE_ONLY ServiceBehaviour.fails).result =
      AdmissionResult.rejected (create_result CommandStatus.CALIBRATION_NOT_DONE
        "You need to calibrate the robot before sending a command")) ∧
    ((callback_goal (some ⟨true, false, true⟩) true ⟨true, GoalStatus.ACTIVE⟩ []
        true CmdType.MOVE_ONLY ServiceBehaviour.fails).result =
      AdmissionResult.rejected (create_result CommandStatus.CALIBRATION_NOT_DONE
        "Calibration in progress, wait until it ends to send a command")) ∧
    ((callback_goal (some ⟨true, false, false⟩) true ⟨true, GoalStatus.ACTIVE⟩ []
        true CmdType.MOVE_ONLY ServiceBehaviour.fails).result =
      AdmissionResult.rejected (create_result CommandStatus.JOG_CONTROLLER_ENABLED
        "You need to deactivate jog controller to execute a new command")) := by
  refine ⟨?_, ?_, ?_, ?_, ?_⟩
  · exact (callback_goal_rejection_order ⟨false, true, true⟩ true
      ⟨true, GoalStatus.ACTIVE⟩ [] true CmdType.MOVE_ONLY
      ServiceBehaviour.fails).1
  · exact (callback_goal_rejection_order ⟨false, true, true⟩ true
      ⟨true, GoalStatus.ACTIVE⟩ [] true CmdType.MOVE_ONLY
      ServiceBehaviour.fails).2.1 rfl
  · exact (callback_goal_rejection_order ⟨true, true, true⟩ true
      ⟨true, GoalStatus.ACTIVE⟩ [] true CmdType.MOVE_ONLY
      ServiceBehaviour.fails).2.2.1 rfl rfl
  · exact (callback_goal_rejection_order ⟨true, false, true⟩ true
      ⟨true, GoalStatus.ACTIVE⟩ [] true CmdType.MOVE_ONLY
      ServiceBehaviour.fails).2.2.2.1 rfl rfl rfl
  · exact (callback_goal_rejection_order ⟨true, false, false⟩ true
      ⟨true, GoalStatus.ACTIVE⟩ [] true CmdType.MOVE_ONLY
      ServiceBehaviour.fails).2.2.2.2 rfl rfl rfl rfl

/-! ## C5: still-active retry loop -/

/-- C5: when a request passes the readiness checks while the goal slot
still holds an ACTIVE or PENDING goal, the retry loop re-checks activity
once per configured try (the re-reads list has one entry per try):
rejection with GOAL_STILL_ACTIVE happens exactly when every re-read still
saw the goal active, i.e. the retries were exhausted; as soon as one
re-read finds the goal inactive, admission proceeds to the remaining
checks. -/
theorem callback_goal_still_active_retry (h : HardwareStatus) (jog : Bool)
    (slot0 : SlotRead) (reads : List SlotRead) (lm : Bool) (ct : CmdType)
    (svc : ServiceBehaviour)
    (hcu : h.connection_up = true) (hcn : h.calibration_needed = false)
    (hcp : h.calibration_in_progress = false) (hjog : jog = false)
    (hact : current_goal_is_active slot0.hasGoal slot0.status = true) :
    (still_active_after_retries reads =
      reads.all (fun r => current_goal_is_active r.hasGoal r.status)) ∧
    (still_active_after_retries reads = true →
      callback_goal (some h) jog slot0 reads lm ct svc =
        { result := AdmissionResult.rejected
            (create_result CommandStatus.GOAL_STILL_ACTIVE
              "Current command is still active"),
          installed := false, disengageAttempted := false }) ∧
    (still_active_after_retries reads = false →
      callback_goal (some h) jog slot0 reads lm ct svc =
        learning_mode_stage lm ct svc) := by
  obtain ⟨cu, cn, cp⟩ := h
  simp only at hcu hcn hcp
  subst hcu hcn hcp hjog
  refine ⟨still_active_after_retries_eq_all reads, ?_, ?_⟩
  · intro hstill
    simp [callback_goal, hact, hstill]
  · intro hstill
    simp [callback_goal, hact, hstill]

/-- C5 witness: one exhausted-retries rejection and one
became-inactive-within-the-window admission, at concrete inputs. -/
theorem callback_goal_still_active_retry_witness :
    (callback_goal (some ⟨true, false, false⟩) false ⟨true, GoalStatus.ACTIVE⟩
        [⟨true, GoalStatus.PENDING⟩] true CmdType.MOVE_ONLY
        ServiceBehaviour.fails =
      { result := AdmissionResult.rejected
          (create_result CommandStatus.GOAL_STILL_ACTIVE
            "Current command is still active"),
        installed := false, disengageAttempted := false }) ∧
    (callback_goal (some ⟨true, false, false⟩) false ⟨true, GoalStatus.ACTIVE⟩
        [⟨false, GoalStatus.LOST⟩] true CmdType.MOVE_ONLY
        ServiceBehaviour.fails =
      learning_mode_stage true CmdType.MOVE_ONLY ServiceBehaviour.fails) := by
  constructor
  · exact (callback_goal_still_active_retry ⟨true, false, false⟩ false
      ⟨true, GoalStatus.ACTIVE⟩ [⟨true, GoalStatus.PENDING⟩] true
      CmdType.MOVE_ONLY ServiceBehaviour.fails rfl rfl rfl rfl
      (by decide)).2.1 (by decide)
  · exact (callback_goal_still_active_retry ⟨true, false, false⟩ false
      ⟨true, GoalStatus.ACTIVE⟩ [⟨false, GoalStatus.LOST⟩] true
      CmdType.MOVE_ONLY ServiceBehaviour.fails rfl rfl rfl rfl
      (by decide)).2.2 (by decide)

/-! ## C6: learning-mode disengage -/

/-- C6: once a request has passed the readiness and still-active checks,
a tool-only command skips the learning-mode disengage attempt entirely and
is accepted; a non-tool-only command arriving with learning mode engaged
triggers a disengage attempt, and when the disengage helper returns false
the request is rejected LEARNING_MODE_ON with no goal installed.  The
helper itself is a total function that returns false on service timeout
and on service failure (it never raises). -/
theorem callback_goal_learning_mode (h : HardwareStatus) (jog : Bool)
    (slot0 : SlotRead) (reads : List SlotRead) (lm : Bool) (ct : CmdType)
    (svc : ServiceBehaviour)
    (hcu : h.connection_up = true) (hcn : h.calibration_needed = false)
    (hcp : h.calibration_in_progress = false) (hjog : jog = false)
    (hact : current_goal_is_active slot0.hasGoal slot0.status = false) :
    (ct = CmdType.TOOL_ONLY →
      callback_goal (some h) jog slot0 reads lm ct svc =
        { result := AdmissionResult.accepted, installed := true,
          disengageAttempted := false }) ∧
    (lm = true → ct ≠ CmdType.TOOL_ONLY →
      (callback_goal (some h) jog slot0 reads lm ct svc).disengageAttempted
        = true ∧
      (set_learning_mode svc = false →
        callback_goal (some h) jog slot0 reads lm ct svc =
          { result := AdmissionResult.rejected
              (create_result CommandStatus.LEARNING_MODE_ON
                "Learning mode could not be deactivated"),
            installed := false, disengageAttempted := true })) ∧
    (set_learning_mode ServiceBehaviour.timesOut = false ∧
      set_learning_mode ServiceBehaviour.fails = false) := by
  obtain ⟨cu, cn, cp⟩ := h
  simp only at hcu hcn hcp
  subst hcu hcn hcp hjog
  refine ⟨?_, ?_, rfl, rfl⟩
  · intro hct
    subst hct
    simp [callback_goal, hact, learning_mode_stage]
  · intro hlm hct
    subst hlm
    constructor
    · by_cases hs : set_learning_mode svc <;>
        simp [callback_goal, hact, learning_mode_stage, hct, hs]
    · intro hs
      simp [callback_goal, hact, learning_mode_stage, hct, hs]

/-- C6 witness: a tool-only request skips the disengage and is accepted;
a joints-move request with learning mode on and a failing service is
rejected LEARNING_MODE_ON with the disengage attempted. -/
theorem callback_goal_learning_mode_witness :
    (callback_goal (some ⟨true, false, false⟩) false ⟨false, GoalStatus.LOST⟩
        [] true CmdType.TOOL_ONLY ServiceBehaviour.fails =
      { result := AdmissionResult.accepted, installed := true,
        disengageAttempted := false }) ∧
    ((callback_goal (some ⟨true, false, false⟩) false ⟨false, GoalStatus.LOST⟩
        [] true CmdType.MOVE_ONLY ServiceBehaviour.timesOut).disengageAttempted
      = true) ∧
    (callback_goal (some ⟨true, false, false⟩) false ⟨false, GoalStatus.LOST⟩
        [] true CmdType.MOVE_ONLY ServiceBehaviour.timesOut =
      { result := AdmissionResult.rejected
          (create_result CommandStatus.LEARNING_MODE_ON
            "Learning mode could not be deactivated"),
        installed := false, disengageAttempted := true }) := by
  refine ⟨?_, ?_, ?_⟩
  · exact (callback_goal_learning_mode ⟨true, false, false⟩ false
      ⟨false, GoalStatus.LOST⟩ [] true CmdType.TOOL_ONLY
      ServiceBehaviour.fails rfl rfl rfl rfl (by decide)).1 rfl
  · exact ((callback_goal_learning_mode ⟨true, false, false⟩ false
      ⟨false, GoalStatus.LOST⟩ [] true CmdType.MOVE_ONLY
      ServiceBehaviour.timesOut rfl rfl rfl rfl (by decide)).2.1 rfl
      (by decide)).1
  · exact ((callback_goal_learning_mode ⟨true, false, false⟩ false
      ⟨false, GoalStatus.LOST⟩ [] true CmdType.MOVE_ONLY
      ServiceBehaviour.timesOut rfl rfl rfl rfl (by decide)).2.1 rfl
      (by decide)).2 rfl

/-! ## C2: outcome mapping when no pause occurred -/

/-- C2: when the pre-check passes and the pause state observed after the
executor returns is STANDBY, the terminal status is the pure function
`termOfAct ∘ map_outcome_act` of the execution outcome alone: executor
raised (no response) gives ABORTED; SUCCESS gives SUCCEEDED; STOPPED gives
CANCELED; CONTROLLER_PROBLEMS gives ABORTED; any other status code gives
ABORTED through the unknown-result diagnostic branch. -/
theorem execute_goal_outcome_mapping (env : AttemptEnv) (rest : List AttemptEnv)
    (hw : env.preWaitOk = true) (hpre : env.prePs ≠ PauseState.CANCEL)
    (hpost : env.postPs = PauseState.STANDBY) :
    (execute_goal_action (env :: rest) =
      (termOfAct (map_outcome_act (responseOf env.exec)),
        [Act.invokeExecutor, map_outcome_act (responseOf env.exec),
          Act.eventSet])) ∧
    (∀ e : RobotMoveResult, env.exec = Except.error e →
      (execute_goal_action (env :: rest)).1 = some Terminal.ABORTED ∧
      map_outcome_act (responseOf env.exec) =
        Act.setAborted Diag.execFailure) ∧
    (∀ r : RobotMoveResult, env.exec = Except.ok r →
      (r.status = CommandStatus.SUCCESS →
        (execute_goal_action (env :: rest)).1 = some Terminal.SUCCEEDED) ∧
      (r.status = CommandStatus.STOPPED →
        (execute_goal_action (env :: rest)).1 = some Terminal.CANCELED) ∧
      (r.status = CommandStatus.CONTROLLER_PROBLEMS →
        (execute_goal_action (env :: rest)).1 = some Terminal.ABORTED ∧
        map_outcome_act (responseOf env.exec) =
          Act.setAborted Diag.controllerProblems) ∧
      (r.status ≠ CommandStatus.SUCCESS → r.status ≠ CommandStatus.STOPPED →
        r.status ≠ CommandStatus.CONTROLLER_PROBLEMS →
        (execute_goal_action (env :: rest)).1 = some Terminal.ABORTED ∧
        map_outcome_act (responseOf env.exec) =
          Act.setAborted Diag.unknownResult)) := by
  have hcdp := cancel_due_to_pause_pass env.preWaitOk env.prePs hw hpre
  have key : execute_goal_action (env :: rest) =
      (termOfAct (map_outcome_act (responseOf env.exec)),
        [Act.invokeExecutor, map_outcome_act (responseOf env.exec),
          Act.eventSet]) := by
    simp [execute_goal_action, hcdp, hpost]
  refine ⟨key, ?_, ?_⟩
  · intro e he
    rw [key]
    simp [responseOf, he, map_outcome_act, termOfAct]
  · intro r hr
    refine ⟨?_, ?_, ?_, ?_⟩
    · intro hs
      rw [key]
      simp [responseOf, hr, map_outcome_act, hs, termOfAct]
    · intro hs
      rw [key]
      simp [responseOf, hr, map_outcome_act, hs, termOfAct]
    · intro hs
      rw [key]
      simp [responseOf, hr, map_outcome_act, hs, termOfAct]
    · intro h1 h2 h3
      rw [key]
      simp [responseOf, hr, map_outcome_act, h1, h2, h3, termOfAct]

/-- C2 witness: the five outcome classes at concrete environments (no
pause in effect): a raised exception, SUCCESS, STOPPED,
CONTROLLER_PROBLEMS and an unrecognized status code. -/
theorem execute_goal_outcome_mapping_witness :
    (execute_goal_action [⟨true, PauseState.STANDBY,
        Except.error (create_result CommandStatus.HARDWARE_NOT_OK "exc"),
        PauseState.STANDBY, true, PauseState.STANDBY, PauseState.STANDBY⟩]).1
      = some Terminal.ABORTED ∧
    (execute_goal_action [⟨true, PauseState.STANDBY,
        Except.ok (create_result CommandStatus.SUCCESS "ok"),
        PauseState.STANDBY, true, PauseState.STANDBY, PauseState.STANDBY⟩]).1
      = some Terminal.SUCCEEDED ∧
    (execute_goal_action [⟨true, PauseState.STANDBY,
        Except.ok (create_result CommandStatus.STOPPED "stopped"),
        PauseState.STANDBY, true, PauseState.STANDBY, PauseState.STANDBY⟩]).1
      = some Terminal.CANCELED ∧
    (execute_goal_action [⟨true, PauseState.STANDBY,
        Except.ok (create_result CommandStatus.CONTROLLER_PROBLEMS "ctrl"),
        PauseState.STANDBY, true, PauseState.STANDBY, PauseState.STANDBY⟩]).1
      = some Terminal.ABORTED ∧
    (execute_goal_action [⟨true, PauseState.STANDBY,
        Except.ok (create_result (CommandStatus.OTHER 42) "odd"),
        PauseState.STANDBY, true, PauseState.STANDBY, PauseState.STANDBY⟩]).1
      = some Terminal.ABORTED := by
  refine ⟨?_, ?_, ?_, ?_, ?_⟩
  · exact ((execute_goal_outcome_mapping ⟨true, PauseState.STANDBY,
      Except.error (create_result CommandStatus.HARDWARE_NOT_OK "exc"),
      PauseState.STANDBY, true, PauseState.STANDBY, PauseState.STANDBY⟩ []
      rfl (by decide) rfl).2.1
      (create_result CommandStatus.HARDWARE_NOT_OK "exc") rfl).1
  · exact ((execute_goal_outcome_mapping ⟨true, PauseState.STANDBY,
      Except.ok (create_result CommandStatus.SUCCESS "ok"),
      PauseState.STANDBY, true, PauseState.STANDBY, PauseState.STANDBY⟩ []
      rfl (by decide) rfl).2.2
      (create_result CommandStatus.SUCCESS "ok") rfl).1 rfl
  · exact ((execute_goal_outcome_mapping ⟨true, PauseState.STANDBY,
      Except.ok (create_result CommandStatus.STOPPED "stopped"),
      PauseState.STANDBY, true, PauseState.STANDBY, PauseState.STANDBY⟩ []
      rfl (by decide) rfl).2.2
      (create_result CommandStatus.STOPPED "stopped") rfl).2.1 rfl
  · exact (((execute_goal_outcome_mapping ⟨true, PauseState.STANDBY,
      Except.ok (create_result CommandStatus.CONTROLLER_PROBLEMS "ctrl"),
      PauseState.STANDBY, true, PauseState.STANDBY, PauseState.STANDBY⟩ []
      rfl (by decide) rfl).2.2
      (create_result CommandStatus.CONTROLLER_PROBLEMS "ctrl") rfl).2.2.1
      rfl).1
  · exact (((execute_goal_outcome_mapping ⟨true, PauseState.STANDBY,
      Except.ok (create_result (CommandStatus.OTHER 42) "odd"),
      PauseState.STANDBY, true, PauseState.STANDBY, PauseState.STANDBY⟩ []
      rfl (by decide) rfl).2.2
      (create_result (CommandStatus.OTHER 42) "odd") rfl).2.2.2
      (by decide) (by decide) (by decide)).1

/-! ## C3: pre-check cancellation -/

/-- C3: on any attempt whose pre-check fires — the gate wait timed out
(the gate was blocked and stayed blocked past the configured pause
timeout) or the recorded pause state is CANCEL — the goal is finalized
CANCELED, the pause bookkeeping is reset (gate set, pause state STANDBY,
from any starting bookkeeping), and the executor is never invoked on that
attempt. -/
theorem execute_goal_precheck_cancel (env : AttemptEnv)
    (rest : List AttemptEnv) (s : PauseVars)
    (h : env.preWaitOk = false ∨ env.prePs = PauseState.CANCEL) :
    execute_goal_action (env :: rest) =
      (some Terminal.CANCELED, [Act.setCanceled, Act.resetPausePlay]) ∧
    Act.invokeExecutor ∉ (execute_goal_action (env :: rest)).2 ∧
    runActs s (execute_goal_action (env :: rest)).2 =
      { gateSet := true, pauseState := PauseState.STANDBY } := by
  have hc := cancel_due_to_pause_fires env.preWaitOk env.prePs h
  have key : execute_goal_action (env :: rest) =
      (some Terminal.CANCELED, [Act.setCanceled, Act.resetPausePlay]) := by
    simp [execute_goal_action, hc]
  refine ⟨key, ?_, ?_⟩
  · rw [key]
    simp
  · rw [key]
    simp [runActs, applyAct]

/-- C3 witness: a timed-out gate and a CANCEL pause state, both starting
from blocked bookkeeping, at concrete inputs. -/
theorem execute_goal_precheck_cancel_witness :
    (execute_goal_action [⟨false, PauseState.PAUSE,
        Except.ok (create_result CommandStatus.SUCCESS "ok"),
        PauseState.STANDBY, true, PauseState.STANDBY, PauseState.STANDBY⟩] =
      (some Terminal.CANCELED, [Act.setCanceled, Act.resetPausePlay])) ∧
    (runActs { gateSet := false, pauseState := PauseState.CANCEL }
      (execute_goal_action [⟨true, PauseState.CANCEL,
        Except.ok (create_result CommandStatus.SUCCESS "ok"),
        PauseState.STANDBY, true, PauseState.STANDBY, PauseState.STANDBY⟩]).2 =
      { gateSet := true, pauseState := PauseState.STANDBY }) := by
  constructor
  · exact (execute_goal_precheck_cancel ⟨false, PauseState.PAUSE,
      Except.ok (create_result CommandStatus.SUCCESS "ok"),
      PauseState.STANDBY, true, PauseState.STANDBY, PauseState.STANDBY⟩ []
      { gateSet := false, pauseState := PauseState.PAUSE }
      (Or.inl rfl)).1
  · exact (execute_goal_precheck_cancel ⟨true, PauseState.CANCEL,
      Except.ok (create_result CommandStatus.SUCCESS "ok"),
      PauseState.STANDBY, true, PauseState.STANDBY, PauseState.STANDBY⟩ []
      { gateSet := false, pauseState := PauseState.CANCEL }
      (Or.inr rfl)).2.2

/-! ## C4: pause observed after the executor returned -/

/-- C4: when the pre-check passed and the pause state observed after the
executor call is PAUSE, the path re-runs the pre-check gate: a timed-out
wait or a CANCEL state finalizes the goal CANCELED; if the pause state
has meanwhile become RESUME the whole execution path restarts on the same
goal (exactly one re-invocation consuming the next attempt environment,
recursion depth bounded only by the number of resume cycles supplied);
any other pause state at that point finalizes ABORTED through the
unknown-result diagnostic. -/
theorem execute_goal_pause_branch (env : AttemptEnv) (rest : List AttemptEnv)
    (hw : env.preWaitOk = true) (hpre : env.prePs ≠ PauseState.CANCEL)
    (hpause : env.postPs = PauseState.PAUSE) :
    ((env.postWaitOk = false ∨ env.postPs2 = PauseState.CANCEL) →
      execute_goal_action (env :: rest) =
        (some Terminal.CANCELED,
          [Act.invokeExecutor, Act.setCanceled, Act.resetPausePlay,
            Act.eventSet])) ∧
    (env.postWaitOk = true → env.postPs2 ≠ PauseState.CANCEL →
      env.postPs3 = PauseState.RESUME →
      execute_goal_action (env :: rest) =
        ((execute_goal_action rest).1,
          Act.invokeExecutor :: (execute_goal_action rest).2)) ∧
    (env.postWaitOk = true → env.postPs2 ≠ PauseState.CANCEL →
      env.postPs3 ≠ PauseState.RESUME →
      execute_goal_action (env :: rest) =
        (some Terminal.ABORTED,
          [Act.invokeExecutor, Act.setAborted Diag.unknownResult,
            Act.eventSet])) := by
  have hcdp := cancel_due_to_pause_pass env.preWaitOk env.prePs hw hpre
  refine ⟨?_, ?_, ?_⟩
  · intro h2
    have hc2 := cancel_due_to_pause_fires env.postWaitOk env.postPs2 h2
    simp [execute_goal_action, hcdp, hc2, hpause]
  · intro hw2 hp2 hr
    have hc2 := cancel_due_to_pause_pass env.postWaitOk env.postPs2 hw2 hp2
    simp [execute_goal_action, hcdp, hc2, hpause, hr]
  · intro hw2 hp2 hr
    have hc2 := cancel_due_to_pause_pass env.postWaitOk env.postPs2 hw2 hp2
    simp [execute_goal_action, hcdp, hc2, hpause, hr]

/-- C4 witness: the three post-pause resolutions at concrete inputs — a
CANCEL signal during the pause, a RESUME that restarts and succeeds on
the second attempt, and an unexpected pause state that aborts. -/
theorem execute_goal_pause_branch_witness :
    (execute_goal_action [⟨true, PauseState.STANDBY,
        Except.ok (create_result CommandStatus.SUCCESS "ok"),
        PauseState.PAUSE, true, PauseState.CANCEL, PauseState.CANCEL⟩] =
      (some Terminal.CANCELED,
        [Act.invokeExecutor, Act.setCanceled, Act.resetPausePlay,
          Act.eventSet])) ∧
    (execute_goal_action [⟨true, PauseState.STANDBY,
        Except.ok (create_result CommandStatus.STOPPED "stopped"),
        PauseState.PAUSE, true, PauseState.RESUME, PauseState.RESUME⟩,
      ⟨true, PauseState.STANDBY,
        Except.ok (create_result CommandStatus.SUCCESS "ok"),
        PauseState.STANDBY, true, PauseState.STANDBY, PauseState.STANDBY⟩] =
      ((execute_goal_action [⟨true, PauseState.STANDBY,
          Except.ok (create_result CommandStatus.SUCCESS "ok"),
          PauseState.STANDBY, true, PauseState.STANDBY,
          PauseState.STANDBY⟩]).1,
        Act.invokeExecutor :: (execute_goal_action [⟨true, PauseState.STANDBY,
          Except.ok (create_result CommandStatus.SUCCESS "ok"),
          PauseState.STANDBY, true, PauseState.STANDBY,
          PauseState.STANDBY⟩]).2)) ∧
    (execute_goal_action [⟨true, PauseState.STANDBY,
        Except.ok (create_result CommandStatus.SUCCESS "ok"),
        PauseState.PAUSE, true, PauseState.PAUSE, PauseState.PAUSE⟩] =
      (some Terminal.ABORTED,
        [Act.invokeExecutor, Act.setAborted Diag.unknownResult,
          Act.eventSet])) := by
  refine ⟨?_, ?_, ?_⟩
  · exact (execute_goal_pause_branch ⟨true, PauseState.STANDBY,
      Except.ok (create_result CommandStatus.SUCCESS "ok"),
      PauseState.PAUSE, true, PauseState.CANCEL, PauseState.CANCEL⟩ []
      rfl (by decide) rfl).1 (Or.inr rfl)
  · exact (execute_goal_pause_branch ⟨true, PauseState.STANDBY,
      Except.ok (create_result CommandStatus.STOPPED "stopped"),
      PauseState.PAUSE, true, PauseState.RESUME, PauseState.RESUME⟩
      [⟨true, PauseState.STANDBY,
        Except.ok (create_result CommandStatus.SUCCESS "ok"),
        PauseState.STANDBY, true, PauseState.STANDBY, PauseState.STANDBY⟩]
      rfl (by decide) rfl).2.1 rfl (by decide) rfl
  · exact (execute_goal_pause_branch ⟨true, PauseState.STANDBY,
      Except.ok (create_result CommandStatus.SUCCESS "ok"),
      PauseState.PAUSE, true, PauseState.PAUSE, PauseState.PAUSE⟩ []
      rfl (by decide) rfl).2.2 rfl (by decide) (by decide)

/-! ## C7: the gate is clear on every terminating return -/

/-- C7: every terminating run of the execution path — early pre-check
cancel, pause-branch cancel, pause-branch abort, and every
outcome-mapping branch, through any number of resume re-invocations —
leaves the pause-finished gate set ("clear") after its trace of writes,
whatever the bookkeeping looked like when the path started. -/
theorem execute_goal_gate_clear_on_return (envs : List AttemptEnv)
    (s : PauseVars) (hterm : (execute_goal_action envs).1.isSome = true) :
    (runActs s (execute_goal_action envs).2).gateSet = true := by
  induction envs generalizing s with
  | nil => simp [execute_goal_action] at hterm
  | cons env rest ih =>
    rcases cancel_due_to_pause_cases env.preWaitOk env.prePs with hc | hc
    · simp [execute_goal_action, hc, runActs, applyAct]
    · by_cases hp : env.postPs = PauseState.PAUSE
      · rcases cancel_due_to_pause_cases env.postWaitOk env.postPs2 with
          hc2 | hc2
        · simp [execute_goal_action, hc, hc2, hp, runActs, applyAct]
        · by_cases hr : env.postPs3 = PauseState.RESUME
          · have hterm2 : (execute_goal_action rest).1.isSome = true := by
              simpa [execute_goal_action, hc, hc2, hp, hr] using hterm
            have hgate := ih hterm2 (s := s)
            simpa [execute_goal_action, hc, hc2, hp, hr, runActs, applyAct]
              using hgate
          · simp [execute_goal_action, hc, hc2, hp, hr, runActs, applyAct]
      · simp [execute_goal_action, hc, hp, runActs, applyAct]

/-- C7 witness: a run that was paused, resumed once and then succeeded,
started from blocked bookkeeping, ends with the gate set. -/
theorem execute_goal_gate_clear_on_return_witness :
    (execute_goal_action [⟨true, PauseState.STANDBY,
        Except.ok (create_result CommandStatus.STOPPED "stopped"),
        PauseState.PAUSE, true, PauseState.RESUME, PauseState.RESUME⟩,
      ⟨true, PauseState.STANDBY,
        Except.ok (create_result CommandStatus.SUCCESS "ok"),
        PauseState.STANDBY, true, PauseState.STANDBY,
        PauseState.STANDBY⟩]).1.isSome = true ∧
    (runActs { gateSet := false, pauseState := PauseState.PAUSE }
      (execute_goal_action [⟨true, PauseState.STANDBY,
        Except.ok (create_result CommandStatus.STOPPED "stopped"),
        PauseState.PAUSE, true, PauseState.RESUME, PauseState.RESUME⟩,
      ⟨true, PauseState.STANDBY,
        Except.ok (create_result CommandStatus.SUCCESS "ok"),
        PauseState.STANDBY, true, PauseState.STANDBY,
        PauseState.STANDBY⟩]).2).gateSet = true := by
  constructor
  · rfl
  · exact execute_goal_gate_clear_on_return
      [⟨true, PauseState.STANDBY,
        Except.ok (create_result CommandStatus.STOPPED "stopped"),
        PauseState.PAUSE, true, PauseState.RESUME, PauseState.RESUME⟩,
      ⟨true, PauseState.STANDBY,
        Except.ok (create_result CommandStatus.SUCCESS "ok"),
        PauseState.STANDBY, true, PauseState.STANDBY, PauseState.STANDBY⟩]
      { gateSet := false, pauseState := PauseState.PAUSE } rfl

/-! ## C8: the pause-signal callback -/

/-- C8: every pause signal records its state first; PAUSE additionally
blocks the pause-finished gate and requests cancellation of the current
command; CANCEL sets the gate and requests cancellation; every other
signal (STANDBY, RESUME) sets the gate and requests no cancellation. -/
theorem callback_pause_movement_spec (st : PauseState) :
    ((callback_pause_movement st).pauseState = st) ∧
    (st = PauseState.PAUSE →
      (callback_pause_movement st).gateSet = false ∧
      (callback_pause_movement st).cancelRequested = true) ∧
    (st = PauseState.CANCEL →
      (callback_pause_movement st).gateSet = true ∧
      (callback_pause_movement st).cancelRequested = true) ∧
    (st ≠ PauseState.PAUSE → st ≠ PauseState.CANCEL →
      (callback_pause_movement st).gateSet = true ∧
      (callback_pause_movement st).cancelRequested = false) := by
  cases st <;> simp [callback_pause_movement]

/-- C8 witness: the PAUSE, CANCEL and RESUME signals at concrete inputs. -/
theorem callback_pause_movement_spec_witness :
    ((callback_pause_movement PauseState.PAUSE).gateSet = false ∧
      (callback_pause_movement PauseState.PAUSE).cancelRequested = true) ∧
    ((callback_pause_movement PauseState.CANCEL).gateSet = true ∧
      (callback_pause_movement PauseState.CANCEL).cancelRequested = true) ∧
    ((callback_pause_movement PauseState.RESUME).gateSet = true ∧
      (callback_pause_movement PauseState.RESUME).cancelRequested = false) := by
  refine ⟨?_, ?_, ?_⟩
  · exact (callback_pause_movement_spec PauseState.PAUSE).2.1 rfl
  · exact (callback_pause_movement_spec PauseState.CANCEL).2.2.1 rfl
  · exact (callback_pause_movement_spec PauseState.RESUME).2.2.2
      (by decide) (by decide)

/-! ## C9: the cancel callback -/

/-- C9: a cancel request whose goal handle does not match the current one
performs nothing; a matching request triggers arm and tool executor
cancellation when nothing raises, and a raised domain error is swallowed
and logged (the callback is a total function: it never raises to its
caller). -/
theorem callback_cancel_spec (armRaises toolRaises : Bool) :
    (callback_cancel false armRaises toolRaises = []) ∧
    (armRaises = false → toolRaises = false →
      callback_cancel true armRaises toolRaises =
        [CanEv.armCancel, CanEv.toolCancel]) ∧
    (∀ evs, cancel_command armRaises toolRaises = Except.error evs →
      callback_cancel true armRaises toolRaises =
        evs ++ [CanEv.logWarn]) := by
  refine ⟨rfl, ?_, ?_⟩
  · intro ha ht
    subst ha ht
    rfl
  · intro evs herr
    simp [callback_cancel, cancel_current_command, herr]

/-- C9 witness: a non-matching handle does nothing; a matching handle
with no error cancels arm and tool; a matching handle whose arm
cancellation raises swallows and logs the error. -/
theorem callback_cancel_spec_witness :
    (callback_cancel false true true = []) ∧
    (callback_cancel true false false =
      [CanEv.armCancel, CanEv.toolCancel]) ∧
    (callback_cancel true true false =
      [CanEv.armCancel] ++ [CanEv.logWarn]) := by
  refine ⟨?_, ?_, ?_⟩
  · exact (callback_cancel_spec true true).1
  · exact (callback_cancel_spec false false).2.1 rfl rfl
  · exact (callback_cancel_spec true false).2.2 [CanEv.armCancel] rfl

/-! ## C10: the learning-mode callback -/

/-- C10: an update that switches learning mode from off to on issues the
arm-stop command and only then stores the flag; every other transition
(on to on, on to off, off to off) issues no stop; in all cases the stored
flag becomes the received value. -/
theorem callback_learning_mode_spec (lm activate : Bool) :
    ((callback_learning_mode lm activate).1 = activate) ∧
    (lm = false → activate = true →
      (callback_learning_mode lm activate).2 =
        [LmEv.stopArm, LmEv.setFlag activate]) ∧
    (lm = true ∨ activate = false →
      (callback_learning_mode lm activate).2 = [LmEv.setFlag activate] ∧
      LmEv.stopArm ∉ (callback_learning_mode lm activate).2) := by
  cases lm <;> cases activate <;>
    simp [callback_learning_mode]

/-- C10 witness: the off-to-on transition stops the arm first; the
on-to-off transition only stores the flag. -/
theorem callback_learning_mode_spec_witness :
    ((callback_learning_mode false true).2 =
      [LmEv.stopArm, LmEv.setFlag true]) ∧
    ((callback_learning_mode true false).2 = [LmEv.setFlag false] ∧
      LmEv.stopArm ∉ (callback_learning_mode true false).2) := by
  constructor
  · exact (callback_learning_mode_spec false true).2.1 rfl rfl
  · exact (callback_learning_mode_spec true false).2.2 (Or.inl rfl)
